import Mathlib

/-!
Verification development for the broadcasterJS peer presence and messaging
protocol.  The definitions below are a shallow embedding of the TypeScript
sources: `Broadcaster` (Broadcaster.ts, the version with heartbeat and
garbage collection), the generic `BroadcasterSubscription` registry
(subscription/Subscription.ts) and the message/state data types (types.ts).
Stateful methods are embedded as pure functions from the instance state to a
pair of the new instance state and the list of externally observable effects
(bridge sends, subscriber invocations, console diagnostics, lifecycle
callbacks), in the order the source produces them.  `Date.now()` is passed
explicitly as a `now : Nat` argument at every point the source reads the
clock.
-/

namespace BroadcasterJS

/-- StateMessageType enum from types.ts: allowed control (state) message
types. -/
inductive StateMessageType where
  | CONNECTED
  | UPDATED
  | DISCONNECTED
  | HEALTH_BEACON
deriving DecidableEq, Repr

/-- BroadcasterState from types.ts: the transmitted part of an instance
descriptor (`{ createdAt, id, metadata }`). -/
structure BroadcasterState (Metadata : Type) where
  createdAt : Nat
  id : String
  metadata : Metadata
deriving DecidableEq, Repr

/-- BroadcasterInstanceDescriptor from types.ts:
`BroadcasterState & { inactive?: boolean; lastUpdate: number }`. -/
structure BroadcasterInstanceDescriptor (Metadata : Type) where
  createdAt : Nat
  id : String
  metadata : Metadata
  inactive : Option Bool
  lastUpdate : Nat
deriving DecidableEq, Repr

/-- BroadcasterMessage from types.ts: an application message
`{ from, payload, to?: string | string[] }`.  The TS field `from` is a Lean
keyword, hence `from'`. -/
structure BroadcasterMessage (Payload : Type) where
  from' : String
  payload : Payload
  to' : Option (String ⊕ List String)

/-- BroadcasterStateMessage from types.ts: a control message
`{ from, state?, to?, type }`. -/
structure BroadcasterStateMessage (Metadata : Type) where
  from' : String
  state : Option (BroadcasterState Metadata)
  to' : Option String
  type : StateMessageType
deriving DecidableEq, Repr

/-- One registration held by a `BroadcasterSubscription`
(subscription/Subscription.ts).  Callbacks are opaque to the registry: the
source stores function references and compares them by reference, so they
are modelled by identity tokens (`Nat`); `onComplete` is optional exactly as
in the source. -/
structure Subscriber where
  nextId : Nat
  onComplete : Option Nat
deriving DecidableEq, Repr

/-- BroadcasterSubscription from subscription/Subscription.ts: the list of
currently active subscribers, the replay buffer and the shareReplay flag. -/
structure BroadcasterSubscription (Args : Type) where
  subscribers : List Subscriber
  buffer : Option Args
  shareReplay : Bool

namespace BroadcasterSubscription

/-- `close` (Subscription.ts line 43): invoke every subscriber's
`onComplete?.()` and clear the subscriber list.  Returns the new registry
state and the list of invoked onComplete tokens, in registration order.
The buffer is left as is, exactly as in the source. -/
def close (s : BroadcasterSubscription Args) :
    BroadcasterSubscription Args × List Nat :=
  ({ s with subscribers := [] },
   s.subscribers.filterMap (fun sub => sub.onComplete))

/-- `next` (Subscription.ts line 53): store the value in the buffer when
shareReplay is on, then invoke every registered subscriber's `next` with it,
in registration order.  Returns the new registry state and one
`(nextId, args)` invocation per registered subscriber. -/
def next (s : BroadcasterSubscription Args) (args : Args) :
    BroadcasterSubscription Args × List (Nat × Args) :=
  ({ s with buffer := if s.shareReplay then some args else s.buffer },
   s.subscribers.map (fun sub => (sub.nextId, args)))

/-- `subscribe` (Subscription.ts line 69): append the new registration, then
replay the buffered value to it when a buffer exists. -/
def subscribe (s : BroadcasterSubscription Args) (callback : Nat)
    (complete : Option Nat) :
    BroadcasterSubscription Args × List (Nat × Args) :=
  ({ s with subscribers := s.subscribers ++ [⟨callback, complete⟩] },
   match s.buffer with
   | some b => [(callback, b)]
   | none => [])

/-- `unsubscribe` (Subscription.ts line 90): drop every registration whose
`next` reference equals the given callback. -/
def unsubscribe (s : BroadcasterSubscription Args) (callback : Nat) :
    BroadcasterSubscription Args :=
  { s with subscribers := s.subscribers.filter (fun sub => sub.nextId ≠ callback) }

end BroadcasterSubscription

/-- Defaults from constants.ts, as documented on BroadcasterSettings in
types.ts (`@default 80` / `@default 20` / `@default 200`). -/
def DEFAULT_BEACON_TIMER : Nat := 80

/-- Default garbage collector interval (ms). -/
def DEFAULT_GARBAGE_COLLECTOR_TIMER : Nat := 20

/-- Default staleness threshold after which a silent peer is evicted (ms). -/
def DEFAULT_REMOVE_AFTER_TIME : Nat := 200

/-- BroadcasterSettings from types.ts, restricted to the fields the
Broadcaster logic reads.  Optional middleware transforms are modelled as
optional functions on the payload; the optional `on.init` / `on.close`
lifecycle callbacks are modelled by presence flags, since only whether they
are invoked is observable. -/
structure BroadcasterSettings (Payload Metadata : Type) where
  channel : String
  metadata : Metadata
  middlewareBefore : Option (Payload → Payload)
  middlewareAfter : Option (Payload → Payload)
  onInit : Bool
  onClose : Bool
  healthBeaconTimer : Option Nat
  garbageCollectorTimer : Option Nat
  garbageCollectorThresholdTimer : Option Nat
  disableGarbageCollector : Bool

/-- The mutable state of one Broadcaster instance (Broadcaster.ts): the
peer directory `_broadcasters`, the identity fields, the closed flag, the
current metadata and the three subscription registries. -/
structure Broadcaster (Payload Metadata : Type) where
  broadcasters : List (BroadcasterInstanceDescriptor Metadata)
  createdAt : Nat
  channel : String
  closed : Bool
  id : String
  metadata : Metadata
  messageSubscriptionManager : BroadcasterSubscription (BroadcasterMessage Payload)
  broadcastersSubscriptionManager :
    BroadcasterSubscription (List (BroadcasterInstanceDescriptor Metadata))
  broadcastersErrorManager : BroadcasterSubscription Unit
  settings : BroadcasterSettings Payload Metadata

/-- Externally observable effects of one Broadcaster method call, in the
order the source produces them: bridge sends, interval bookkeeping, console
diagnostics (`console.error` inside `isBroadcasterActive`), lifecycle
callbacks, and subscriber invocations of the three registries. -/
inductive BroadcasterEffect (Payload Metadata : Type) where
  | bridgePostMessage (m : BroadcasterMessage Payload)
  | bridgeSetState (m : BroadcasterStateMessage Metadata)
  | bridgeDestroy
  | clearIntervals
  | consoleError (methodName : String)
  | onInitCallback
  | onCloseCallback
  | messageNext (subscriberId : Nat) (m : BroadcasterMessage Payload)
  | snapshotPublish (l : List (BroadcasterInstanceDescriptor Metadata))
  | snapshotNext (subscriberId : Nat)
      (l : List (BroadcasterInstanceDescriptor Metadata))
  | completion (callbackId : Nat)

namespace Broadcaster

variable {Payload Metadata : Type}

/-- `prepareStateMessage` (Broadcaster.ts line 607): builds a control
message.  `to: to || undefined` collapses `null` and the empty string to
`undefined`; `state` is included unless `withoutState` is set. -/
def prepareStateMessage (b : Broadcaster Payload Metadata)
    (type : StateMessageType) (toId : Option String) (withoutState : Bool) :
    BroadcasterStateMessage Metadata :=
  { type := type
    from' := b.id
    to' := match toId with
      | some t => if t = "" then none else some t
      | none => none
    state := if !withoutState then
        some { createdAt := b.createdAt, id := b.id, metadata := b.metadata }
      else none }

/-- `stateToDescriptor` (Broadcaster.ts line 707):
`{...state, lastUpdate: Date.now()}`. -/
def stateToDescriptor (state : BroadcasterState Metadata) (now : Nat) :
    BroadcasterInstanceDescriptor Metadata :=
  { createdAt := state.createdAt
    id := state.id
    metadata := state.metadata
    inactive := none
    lastUpdate := now }

/-- Effects produced by `this.broadcastersSubscriptionManager.next([...])`:
the publish itself, then one invocation per registered peer-list
subscriber. -/
def publishSnapshot (b : Broadcaster Payload Metadata) :
    Broadcaster Payload Metadata × List (BroadcasterEffect Payload Metadata) :=
  let r := b.broadcastersSubscriptionManager.next b.broadcasters
  ({ b with broadcastersSubscriptionManager := r.1 },
   BroadcasterEffect.snapshotPublish b.broadcasters ::
     r.2.map (fun inv => BroadcasterEffect.snapshotNext inv.1 inv.2))

/-- Guard at the top of `updateBroadcasterDescriptor` (Broadcaster.ts line
741): `!localUpdate && (data.to && data.to !== this.id || data.from ===
this.id)`.  JS truthiness makes `data.to` falsy when absent or the empty
string. -/
def descriptorGuard (b : Broadcaster Payload Metadata)
    (data : BroadcasterStateMessage Metadata) (localUpdate : Bool) : Bool :=
  !localUpdate &&
    ((match data.to' with
      | some t => t ≠ "" && t ≠ b.id
      | none => false) || data.from' = b.id)

/-- `updateBroadcasterDescriptor` (Broadcaster.ts line 740): the
reconciliation of an inbound (or, with `localUpdate`, locally produced)
control message into the peer directory. -/
def updateBroadcasterDescriptor (b : Broadcaster Payload Metadata) (now : Nat)
    (data : BroadcasterStateMessage Metadata) (localUpdate : Bool) :
    Broadcaster Payload Metadata × List (BroadcasterEffect Payload Metadata) :=
  if descriptorGuard b data localUpdate then (b, [])
  else
    match data.type with
    | StateMessageType.CONNECTED =>
      let b1 := match data.state with
        | some s =>
          { b with broadcasters := b.broadcasters ++ [stateToDescriptor s now] }
        | none => b
      let replyEffects := if !localUpdate then
          [BroadcasterEffect.bridgeSetState
            (prepareStateMessage b1 StateMessageType.UPDATED (some data.from') false)]
        else []
      let r := publishSnapshot b1
      (r.1, replyEffects ++ r.2)
    | StateMessageType.UPDATED =>
      let b1 := match data.state with
        | some s =>
          { b with broadcasters :=
              b.broadcasters.filter (fun br => br.id ≠ data.from') ++
                [stateToDescriptor s now] }
        | none => b
      let r := publishSnapshot b1
      (r.1, r.2)
    | StateMessageType.DISCONNECTED =>
      let b1 :=
        { b with broadcasters :=
            b.broadcasters.filter (fun br => br.id ≠ data.from') }
      let r := publishSnapshot b1
      (r.1, r.2)
    | StateMessageType.HEALTH_BEACON =>
      ({ b with broadcasters := b.broadcasters.map (fun br =>
          if br.id = data.from' then { br with lastUpdate := now } else br) },
       [])

/-- The filter predicate inside `collectGarbage` (Broadcaster.ts line
509): an entry survives the reaper when it is the instance itself or when
`now - lastUpdate` is within the configured staleness threshold. -/
def keepAlive (b : Broadcaster Payload Metadata) (now : Nat)
    (br : BroadcasterInstanceDescriptor Metadata) : Bool :=
  br.id = b.id ||
    now - br.lastUpdate ≤
      b.settings.garbageCollectorThresholdTimer.getD DEFAULT_REMOVE_AFTER_TIME

/-- `collectGarbage` (Broadcaster.ts line 498): evict every peer other than
self whose `now - lastUpdate` exceeds the staleness threshold (the
`keepAlive` filter above); publish one snapshot when the directory shrank;
do nothing when the garbage collector is disabled. -/
def collectGarbage (b : Broadcaster Payload Metadata) (now : Nat) :
    Broadcaster Payload Metadata × List (BroadcasterEffect Payload Metadata) :=
  if b.settings.disableGarbageCollector then (b, [])
  else
    let broadcastersArrayLength := b.broadcasters.length
    let b1 := { b with broadcasters := b.broadcasters.filter (keepAlive b now) }
    if b1.broadcasters.length ≠ broadcastersArrayLength then
      let r := publishSnapshot b1
      (r.1, r.2)
    else (b1, [])

/-- `isBroadcasterActive` (Broadcaster.ts line 534): when closed, report
the misuse on the console (side channel) and answer false. -/
def isBroadcasterActive (b : Broadcaster Payload Metadata)
    (methodName : String) : Bool × List (BroadcasterEffect Payload Metadata) :=
  if b.closed then (false, [BroadcasterEffect.consoleError methodName])
  else (true, [])

/-- `postMessage` (Broadcaster.ts line 586): no-op with a console
diagnostic when closed; otherwise apply the optional `before` middleware and
hand the message (`{from, payload}`, no `to` field) to the bridge. -/
def postMessage (b : Broadcaster Payload Metadata) (payload : Payload) :
    Broadcaster Payload Metadata × List (BroadcasterEffect Payload Metadata) :=
  let active := isBroadcasterActive b "postMessage"
  if active.1 then
    (b, [BroadcasterEffect.bridgePostMessage
      { from' := b.id
        payload := match b.settings.middlewareBefore with
          | some f => f payload
          | none => payload
        to' := none }])
  else (b, active.2)

/-- `pushMessage` (Broadcaster.ts line 629): deliver an inbound application
message to every message subscriber after the optional `after` middleware,
unless the message's owner is this instance. -/
def pushMessage (b : Broadcaster Payload Metadata)
    (data : BroadcasterMessage Payload) :
    Broadcaster Payload Metadata × List (BroadcasterEffect Payload Metadata) :=
  if data.from' ≠ b.id then
    let delivered : BroadcasterMessage Payload :=
      { data with payload := match b.settings.middlewareAfter with
          | some f => f data.payload
          | none => data.payload }
    let r := b.messageSubscriptionManager.next delivered
    ({ b with messageSubscriptionManager := r.1 },
     r.2.map (fun inv => BroadcasterEffect.messageNext inv.1 inv.2))
  else (b, [])

/-- `updateMetadata` (Broadcaster.ts line 661): replace or update the local
metadata, reconcile the local descriptor (`localUpdate = true`), then
broadcast the UPDATED state message.  The source has no closed-state
guard. -/
def updateMetadata (b : Broadcaster Payload Metadata) (now : Nat)
    (newMetadata : Metadata ⊕ (Metadata → Metadata)) :
    Broadcaster Payload Metadata × List (BroadcasterEffect Payload Metadata) :=
  let b1 := { b with metadata := match newMetadata with
    | Sum.inl m => m
    | Sum.inr f => f b.metadata }
  let newState := prepareStateMessage b1 StateMessageType.UPDATED none false
  let r := updateBroadcasterDescriptor b1 now newState true
  (r.1, r.2 ++ [BroadcasterEffect.bridgeSetState newState])

/-- `sendAliveMessage` (Broadcaster.ts line 679): broadcast a
HEALTH_BEACON control message without state. -/
def sendAliveMessage (b : Broadcaster Payload Metadata) :
    Broadcaster Payload Metadata × List (BroadcasterEffect Payload Metadata) :=
  (b, [BroadcasterEffect.bridgeSetState
    (prepareStateMessage b StateMessageType.HEALTH_BEACON none true)])

/-- `close` (Broadcaster.ts line 475): when not silent and already closed,
only the console diagnostic fires; otherwise run the full teardown:
`on.close` callback, DISCONNECTED broadcast, interval clearing, the three
registry closes (with their completion callbacks) and the bridge
destruction, then mark closed.  The peer directory is not touched. -/
def close (b : Broadcaster Payload Metadata) (silent : Bool) :
    Broadcaster Payload Metadata × List (BroadcasterEffect Payload Metadata) :=
  let active := isBroadcasterActive b "close"
  if !silent && !active.1 then (b, active.2)
  else
    let closeEffects : List (BroadcasterEffect Payload Metadata) :=
      if b.settings.onClose then [BroadcasterEffect.onCloseCallback] else []
    let msg := prepareStateMessage b StateMessageType.DISCONNECTED none false
    let rm := b.messageSubscriptionManager.close
    let re := b.broadcastersErrorManager.close
    let rb := b.broadcastersSubscriptionManager.close
    ({ b with
        closed := true
        messageSubscriptionManager := rm.1
        broadcastersErrorManager := re.1
        broadcastersSubscriptionManager := rb.1 },
     closeEffects ++
       [BroadcasterEffect.bridgeSetState msg, BroadcasterEffect.clearIntervals] ++
       rm.2.map BroadcasterEffect.completion ++
       re.2.map BroadcasterEffect.completion ++
       rb.2.map BroadcasterEffect.completion ++
       [BroadcasterEffect.bridgeDestroy])

/-- The constructor together with `init` (Broadcaster.ts lines 452 and
552): build the instance with an empty directory, fire the optional
`on.init` callback, register the local descriptor through
`updateBroadcasterDescriptor(message, true)` and broadcast the CONNECTED
message.  Identity, creation time and current time are explicit
parameters. -/
def initBroadcaster (settings : BroadcasterSettings Payload Metadata)
    (id : String) (createdAt now : Nat) :
    Broadcaster Payload Metadata × List (BroadcasterEffect Payload Metadata) :=
  let b0 : Broadcaster Payload Metadata :=
    { broadcasters := []
      createdAt := createdAt
      channel := settings.channel
      closed := false
      id := id
      metadata := settings.metadata
      messageSubscriptionManager := ⟨[], none, false⟩
      broadcastersSubscriptionManager := ⟨[], none, true⟩
      broadcastersErrorManager := ⟨[], none, false⟩
      settings := settings }
  let initEffects : List (BroadcasterEffect Payload Metadata) :=
    if settings.onInit then [BroadcasterEffect.onInitCallback] else []
  let message := prepareStateMessage b0 StateMessageType.CONNECTED none false
  let r := updateBroadcasterDescriptor b0 now message true
  (r.1, initEffects ++ r.2 ++ [BroadcasterEffect.bridgeSetState message])

/-- The operations that can hit an open instance: inbound control messages
(dispatched by the bridge to `updateBroadcasterDescriptor`), inbound
application messages (dispatched to `pushMessage`), and the local
operations `updateMetadata`, `postMessage`, the reaper tick
(`collectGarbage`) and the heartbeat tick (`sendAliveMessage`). -/
inductive BroadcasterOp (Payload Metadata : Type) where
  | recvState (now : Nat) (m : BroadcasterStateMessage Metadata)
  | recvMessage (m : BroadcasterMessage Payload)
  | updateMeta (now : Nat) (newMetadata : Metadata ⊕ (Metadata → Metadata))
  | post (p : Payload)
  | gc (now : Nat)
  | beacon

/-- State transition of one operation, discarding the emitted effects. -/
def applyOp (b : Broadcaster Payload Metadata) :
    BroadcasterOp Payload Metadata → Broadcaster Payload Metadata
  | BroadcasterOp.recvState now m => (b.updateBroadcasterDescriptor now m false).1
  | BroadcasterOp.recvMessage m => (b.pushMessage m).1
  | BroadcasterOp.updateMeta now nm => (b.updateMetadata now nm).1
  | BroadcasterOp.post p => (b.postMessage p).1
  | BroadcasterOp.gc now => (b.collectGarbage now).1
  | BroadcasterOp.beacon => b.sendAliveMessage.1

/-- Run a sequence of operations on an open instance. -/
def runOps (b : Broadcaster Payload Metadata)
    (ops : List (BroadcasterOp Payload Metadata)) : Broadcaster Payload Metadata :=
  ops.foldl applyOp b

/-- The self-presence part of the PeerDirectory invariant: the directory
holds an entry whose id equals the owning instance's own id. -/
def selfRegistered (b : Broadcaster Payload Metadata) : Prop :=
  ∃ d ∈ b.broadcasters, d.id = b.id

/-- The control messages handed to the bridge's `setState` among a list of
effects. -/
def setStatePayloads (effects : List (BroadcasterEffect Payload Metadata)) :
    List (BroadcasterStateMessage Metadata) :=
  effects.filterMap (fun e => match e with
    | BroadcasterEffect.bridgeSetState m => some m
    | _ => none)

/-- The application messages handed to the bridge's `postMessage` among a
list of effects. -/
def postMessagePayloads (effects : List (BroadcasterEffect Payload Metadata)) :
    List (BroadcasterMessage Payload) :=
  effects.filterMap (fun e => match e with
    | BroadcasterEffect.bridgePostMessage m => some m
    | _ => none)

/-- The subscriber tokens that received a message delivery among a list of
effects. -/
def messageNextTargets (effects : List (BroadcasterEffect Payload Metadata)) :
    List Nat :=
  effects.filterMap (fun e => match e with
    | BroadcasterEffect.messageNext i _ => some i
    | _ => none)

/-- How many directory snapshots were published to the peer-list registry. -/
def snapshotPublishCount (effects : List (BroadcasterEffect Payload Metadata)) :
    Nat :=
  effects.countP (fun e => match e with
    | BroadcasterEffect.snapshotPublish _ => true
    | _ => false)

/-- The side-channel diagnostics (`console.error` method names) among a
list of effects. -/
def consoleErrors (effects : List (BroadcasterEffect Payload Metadata)) :
    List String :=
  effects.filterMap (fun e => match e with
    | BroadcasterEffect.consoleError s => some s
    | _ => none)

/-- How many times the optional `on.close` lifecycle callback fired. -/
def onCloseCount (effects : List (BroadcasterEffect Payload Metadata)) : Nat :=
  effects.countP (fun e => match e with
    | BroadcasterEffect.onCloseCallback => true
    | _ => false)

/-- How many DISCONNECTED control messages were handed to the bridge. -/
def disconnectedSendCount (effects : List (BroadcasterEffect Payload Metadata)) :
    Nat :=
  effects.countP (fun e => match e with
    | BroadcasterEffect.bridgeSetState m =>
      match m.type with
      | StateMessageType.DISCONNECTED => true
      | _ => false
    | _ => false)

end Broadcaster

section Examples

open Broadcaster

/-- Settings used by the concrete examples: channel "CHANNEL", no
middleware, no lifecycle callbacks, default timers (mirrors the test
fixture of Broadcaster.spec.ts). -/
def exSettings : BroadcasterSettings Nat Nat :=
  ⟨"CHANNEL", 0, none, none, false, false, none, none, none, false⟩

/-- A freshly constructed instance with identity "A", created at time 0. -/
def exInstanceA : Broadcaster Nat Nat :=
  (initBroadcaster exSettings "A" 0 0).1

/-- The CONNECTED control message that a remote peer "B" broadcasts when it
joins. -/
def exConnectedB : BroadcasterStateMessage Nat :=
  ⟨"B", some ⟨7, "B", 9⟩, none, StateMessageType.CONNECTED⟩

/-- Instance "A" after it has processed peer "B"'s CONNECTED broadcast at
time 5. -/
def exInstanceAB : Broadcaster Nat Nat :=
  (exInstanceA.updateBroadcasterDescriptor 5 exConnectedB false).1

/-- A receiving instance "B" with one registered message subscriber
(token 0), mirroring `instance2.subscribe.message(result)` in the test
file. -/
def exReceiverB : Broadcaster Nat Nat :=
  { broadcasters := [⟨0, "B", 0, none, 0⟩]
    createdAt := 0
    channel := "CHANNEL"
    closed := false
    id := "B"
    metadata := 0
    messageSubscriptionManager := ⟨[⟨0, none⟩], none, false⟩
    broadcastersSubscriptionManager := ⟨[], none, true⟩
    broadcastersErrorManager := ⟨[], none, false⟩
    settings := exSettings }

/-- An already-Closed instance with identity "A" (its directory still
holding the self entry, as `close` leaves it). -/
def exClosedA : Broadcaster Nat Nat :=
  { broadcasters := [⟨0, "A", 0, none, 0⟩]
    createdAt := 0
    channel := "CHANNEL"
    closed := true
    id := "A"
    metadata := 0
    messageSubscriptionManager := ⟨[], none, false⟩
    broadcastersSubscriptionManager := ⟨[], none, true⟩
    broadcastersErrorManager := ⟨[], none, false⟩
    settings := exSettings }

/-- Settings with an `on.close` lifecycle callback registered. -/
def exSettingsCb : BroadcasterSettings Nat Nat :=
  ⟨"CHANNEL", 0, none, none, false, true, none, none, none, false⟩

/-- A fresh instance whose settings carry an `on.close` callback. -/
def exInstanceCb : Broadcaster Nat Nat :=
  (initBroadcaster exSettingsCb "A" 0 0).1

end Examples

section Claims

open Broadcaster

/-- C1 (code bug): the spec, the repository's own test
`"discards a message which is not issued to the instance"` and the
`BroadcasterMessage` type (`to?: string | string[]`) all require directed
delivery, but the code does not implement it: `postMessage`'s signature
takes only the payload, so the wire message it builds carries no recipient
restriction (`to' = none`), and `pushMessage` filters only on
`from === this.id`, so a message explicitly addressed to `["OTHER_ID"]` is
still delivered to instance "B"'s subscriber even though "B" is not among
the recipients. -/
theorem c1_directed_delivery_missing_eval :
    (exInstanceA.postMessage 42).2 =
      [BroadcasterEffect.bridgePostMessage ⟨"A", 42, none⟩] ∧
    (exReceiverB.pushMessage ⟨"A", 42, some (Sum.inr ["OTHER_ID"])⟩).2 =
      [BroadcasterEffect.messageNext 0 ⟨"A", 42, some (Sum.inr ["OTHER_ID"])⟩] := by
  constructor <;> rfl

/-- C2: an inbound application message whose `from` equals the instance's
own id produces no delivery, and one from any other id is delivered to each
currently registered message subscriber exactly once, in registration
order. -/
theorem c2_self_exclusion_once_per_subscriber
    (b : Broadcaster Payload Metadata) (data : BroadcasterMessage Payload) :
    messageNextTargets (b.pushMessage data).2 =
      if data.from' = b.id then []
      else b.messageSubscriptionManager.subscribers.map Subscriber.nextId := by
  by_cases h : data.from' = b.id
  · simp [pushMessage, messageNextTargets, h]
  · simp only [pushMessage, messageNextTargets, BroadcasterSubscription.next,
      h, if_neg, ne_eq, not_false_eq_true, if_true, List.filterMap_map]
    induction b.messageSubscriptionManager.subscribers with
    | nil => rfl
    | cons hd tl ih => simpa using ih

/-- C9: closing a subscription registry invokes each currently registered
consumer's `onComplete` (when one was provided) exactly once, in
registration order, and empties the registration list; a second `close`
invokes no callback, and a `next` published after `close` notifies
nobody. -/
theorem c9_subscription_close_idempotent
    (s : BroadcasterSubscription Args) (args : Args) :
    s.close.2 = s.subscribers.filterMap Subscriber.onComplete ∧
    s.close.1.subscribers = [] ∧
    s.close.1.close.2 = [] ∧
    (s.close.1.next args).2 = [] := by
  refine ⟨rfl, rfl, ?_, ?_⟩ <;>
    simp [BroadcasterSubscription.close, BroadcasterSubscription.next]

/-- C3: an inbound CONNECTED control message from a genuinely remote peer
(from ≠ local id and not addressed elsewhere) appends a descriptor built
from the message's state with `lastUpdate = now`, and the only control
message sent in response is a single UPDATED message addressed
`to = m.from` carrying the local instance's own current descriptor; the
local self-registration performed at construction appends the local
descriptor while the only control message it sends is the un-addressed
CONNECTED broadcast, not an addressed UPDATED reply. -/
theorem c3_connected_reply (b : Broadcaster Payload Metadata) (now : Nat)
    (m : BroadcasterStateMessage Metadata) (s : BroadcasterState Metadata)
    (settings : BroadcasterSettings Payload Metadata) (ident : String)
    (createdAt tInit : Nat)
    (htype : m.type = StateMessageType.CONNECTED) (hstate : m.state = some s)
    (hfrom : m.from' ≠ b.id) (hne : m.from' ≠ "")
    (hto : m.to' = none ∨ m.to' = some b.id) :
    (b.updateBroadcasterDescriptor now m false).1.broadcasters =
        b.broadcasters ++ [stateToDescriptor s now] ∧
    setStatePayloads (b.updateBroadcasterDescriptor now m false).2 =
        [⟨b.id, some ⟨b.createdAt, b.id, b.metadata⟩, some m.from',
          StateMessageType.UPDATED⟩] ∧
    (initBroadcaster settings ident createdAt tInit).1.broadcasters =
        [⟨createdAt, ident, settings.metadata, none, tInit⟩] ∧
    setStatePayloads (initBroadcaster settings ident createdAt tInit).2 =
        [⟨ident, some ⟨createdAt, ident, settings.metadata⟩, none,
          StateMessageType.CONNECTED⟩] := by
  obtain ⟨f, st, t, ty⟩ := m
  simp only at htype hstate hfrom hne hto
  subst htype hstate
  refine ⟨?_, ?_, ?_, ?_⟩
  · rcases hto with h | h <;> subst h <;>
      simp [updateBroadcasterDescriptor, descriptorGuard, publishSnapshot,
        hfrom, hne]
  · rcases hto with h | h <;> subst h <;>
      simp [updateBroadcasterDescriptor, descriptorGuard, publishSnapshot,
        prepareStateMessage, setStatePayloads, BroadcasterSubscription.next,
        hfrom, hne, List.filterMap_map, Function.comp]
  · by_cases hInit : settings.onInit <;>
      simp [initBroadcaster, updateBroadcasterDescriptor, descriptorGuard,
        prepareStateMessage, stateToDescriptor, publishSnapshot, hInit]
  · by_cases hInit : settings.onInit <;>
      simp [initBroadcaster, updateBroadcasterDescriptor, descriptorGuard,
        prepareStateMessage, stateToDescriptor, publishSnapshot,
        setStatePayloads, BroadcasterSubscription.next, hInit,
        List.filterMap_map, Function.comp]

/-- C3 witness: instance "A" (createdAt 0, metadata 0) processes peer "B"'s
CONNECTED broadcast at time 5: "B"'s descriptor is appended with
lastUpdate 5 and exactly one UPDATED message addressed to "B", carrying
"A"'s descriptor, goes to the bridge; the constructor of "A" itself
appended "A"'s descriptor and sent only the CONNECTED broadcast. -/
theorem c3_connected_reply_witness :
    exConnectedB.from' ≠ exInstanceA.id ∧
    (exInstanceA.updateBroadcasterDescriptor 5 exConnectedB false).1.broadcasters =
      [⟨0, "A", 0, none, 0⟩, ⟨7, "B", 9, none, 5⟩] ∧
    setStatePayloads (exInstanceA.updateBroadcasterDescriptor 5 exConnectedB false).2 =
      [⟨"A", some ⟨0, "A", 0⟩, some "B", StateMessageType.UPDATED⟩] ∧
    (initBroadcaster exSettings "A" 0 0).1.broadcasters =
      [⟨0, "A", 0, none, 0⟩] ∧
    setStatePayloads (initBroadcaster exSettings "A" 0 0).2 =
      [⟨"A", some ⟨0, "A", 0⟩, none, StateMessageType.CONNECTED⟩] := by
  have h := c3_connected_reply exInstanceA 5 exConnectedB ⟨7, "B", 9⟩
    exSettings "A" 0 0 rfl rfl (by decide) (by decide) (Or.inl rfl)
  refine ⟨by decide, ?_, ?_, ?_, ?_⟩
  · rw [h.1]; rfl
  · rw [h.2.1]; rfl
  · rw [h.2.2.1]; rfl
  · rw [h.2.2.2]; rfl

/-- C4: one reaper tick (`collectGarbage`) keeps exactly the directory
entries that are the instance itself or within the staleness threshold
(so it removes exactly the remote entries with `now - lastUpdate` strictly
above the threshold and never the self entry), publishes exactly one new
snapshot if and only if at least one entry was removed, and does nothing at
all when `disableGarbageCollector` is set. -/
theorem c4_collect_garbage_frame (b : Broadcaster Payload Metadata) (now : Nat) :
    (b.settings.disableGarbageCollector = true → b.collectGarbage now = (b, [])) ∧
    (b.settings.disableGarbageCollector = false →
      (b.collectGarbage now).1.broadcasters = b.broadcasters.filter (keepAlive b now) ∧
      (∀ br, keepAlive b now br =
        (br.id = b.id ||
          now - br.lastUpdate ≤
            b.settings.garbageCollectorThresholdTimer.getD DEFAULT_REMOVE_AFTER_TIME)) ∧
      snapshotPublishCount (b.collectGarbage now).2 =
        (if (b.broadcasters.filter (keepAlive b now)).length = b.broadcasters.length
         then 0 else 1)) := by
  constructor
  · intro h; simp [collectGarbage, h]
  · intro h
    refine ⟨?_, fun br => rfl, ?_⟩ <;>
      by_cases hlen : (b.broadcasters.filter (keepAlive b now)).length
          = b.broadcasters.length <;>
        simp [collectGarbage, publishSnapshot, snapshotPublishCount, h, hlen,
          BroadcasterSubscription.next, List.countP_map, Function.comp]

/-- C4 witness: on the instance "A" that knows peer "B" (lastUpdate 5),
a reaper tick at time 500 (500 - 5 > 200, the default threshold) removes
exactly "B", keeps the self entry, and publishes exactly one snapshot;
with the garbage collector disabled the same tick does nothing. -/
theorem c4_collect_garbage_frame_witness :
    exInstanceAB.settings.disableGarbageCollector = false ∧
    (exInstanceAB.collectGarbage 500).1.broadcasters = [⟨0, "A", 0, none, 0⟩] ∧
    snapshotPublishCount (exInstanceAB.collectGarbage 500).2 = 1 := by
  have h := (c4_collect_garbage_frame exInstanceAB 500).2 rfl
  refine ⟨rfl, ?_, ?_⟩
  · rw [h.1]; rfl
  · rw [h.2.2]; rfl

/-- C5: processing a HEARTBEAT (HEALTH_BEACON) control message from a
remote peer p refreshes `lastUpdate = now` on every directory entry whose
id is p, leaves every other entry — and every other field of the matching
entry — unchanged, inserts nothing when no entry matches, touches nothing
else in the instance, and emits no effect at all; in particular it
publishes no directory snapshot to the peer-list registry. -/
theorem c5_heartbeat_frame (b : Broadcaster Payload Metadata) (now : Nat)
    (m : BroadcasterStateMessage Metadata)
    (htype : m.type = StateMessageType.HEALTH_BEACON)
    (hfrom : m.from' ≠ b.id)
    (hto : m.to' = none ∨ m.to' = some b.id) :
    b.updateBroadcasterDescriptor now m false =
      ({ b with broadcasters := b.broadcasters.map (fun br =>
          if br.id = m.from' then { br with lastUpdate := now } else br) },
       []) := by
  obtain ⟨f, st, t, ty⟩ := m
  simp only at htype hfrom hto
  subst htype
  rcases hto with h | h <;> subst h <;>
    simp [updateBroadcasterDescriptor, descriptorGuard, hfrom]

/-- C5 witness: a HEALTH_BEACON from "B" at time 50 on the instance that
knows "A" (self) and "B" refreshes only "B"'s lastUpdate (5 → 50), keeps
every other field, and produces no effect. -/
theorem c5_heartbeat_frame_witness :
    (⟨"B", none, none, StateMessageType.HEALTH_BEACON⟩ :
        BroadcasterStateMessage Nat).from' ≠ exInstanceAB.id ∧
    (exInstanceAB.updateBroadcasterDescriptor 50
        ⟨"B", none, none, StateMessageType.HEALTH_BEACON⟩ false).1.broadcasters =
      [⟨0, "A", 0, none, 0⟩, ⟨7, "B", 9, none, 50⟩] ∧
    (exInstanceAB.updateBroadcasterDescriptor 50
        ⟨"B", none, none, StateMessageType.HEALTH_BEACON⟩ false).2 = [] := by
  have h := c5_heartbeat_frame exInstanceAB 50
    ⟨"B", none, none, StateMessageType.HEALTH_BEACON⟩ rfl (by decide) (Or.inl rfl)
  refine ⟨by decide, ?_, ?_⟩
  · rw [h]; rfl
  · rw [h]

/-- C7 counterexample: on an already-Closed instance, `updateMetadata`
(which, unlike `postMessage` and `close`, has no closed-state guard)
changes the metadata from 0 to 1, hands an UPDATED control message to the
bridge, and emits no side-channel diagnostic — contradicting the claim that
every mutating public operation invoked when Closed sends nothing, leaves
the state unchanged and is reported via the side channel. -/
theorem c7_update_metadata_after_close_counterexample :
    exClosedA.closed = true ∧
    exClosedA.metadata = 0 ∧
    (exClosedA.updateMetadata 5 (Sum.inl 1)).1.metadata = 1 ∧
    setStatePayloads (exClosedA.updateMetadata 5 (Sum.inl 1)).2 =
      [⟨"A", some ⟨0, "A", 1⟩, none, StateMessageType.UPDATED⟩] ∧
    consoleErrors (exClosedA.updateMetadata 5 (Sum.inl 1)).2 = [] :=
  ⟨rfl, rfl, rfl, rfl, rfl⟩

/-- C7 (amended): on a Closed instance, `postMessage` and `close` are
no-ops whose only observable behaviour is the side-channel console
diagnostic — nothing goes to the bridge or to any registry and the state
is untouched; `updateMetadata`, however, is not guarded: it still applies
the metadata change and hands the UPDATED broadcast to the bridge, with no
diagnostic. -/
theorem c7_after_close_amended (b : Broadcaster Payload Metadata)
    (p : Payload) (now : Nat) (x : Metadata) (h : b.closed = true) :
    b.postMessage p = (b, [BroadcasterEffect.consoleError "postMessage"]) ∧
    b.close false = (b, [BroadcasterEffect.consoleError "close"]) ∧
    (b.updateMetadata now (Sum.inl x)).1.metadata = x ∧
    setStatePayloads (b.updateMetadata now (Sum.inl x)).2 =
      [prepareStateMessage { b with metadata := x }
        StateMessageType.UPDATED none false] ∧
    consoleErrors (b.updateMetadata now (Sum.inl x)).2 = [] := by
  refine ⟨?_, ?_, ?_, ?_, ?_⟩
  · simp [postMessage, isBroadcasterActive, h]
  · simp [close, isBroadcasterActive, h]
  · simp [updateMetadata, updateBroadcasterDescriptor, descriptorGuard,
      prepareStateMessage, publishSnapshot, BroadcasterSubscription.next]
  · simp [updateMetadata, updateBroadcasterDescriptor, descriptorGuard,
      prepareStateMessage, publishSnapshot, BroadcasterSubscription.next,
      setStatePayloads, List.filterMap_append, List.filterMap_map,
      Function.comp]
  · simp [updateMetadata, updateBroadcasterDescriptor, descriptorGuard,
      prepareStateMessage, publishSnapshot, BroadcasterSubscription.next,
      consoleErrors, List.filterMap_append, List.filterMap_map,
      Function.comp]

/-- C7 witness: the amended statement applied to the concrete Closed
instance. -/
theorem c7_after_close_amended_witness :
    exClosedA.closed = true ∧
    exClosedA.postMessage 42 =
      (exClosedA, [BroadcasterEffect.consoleError "postMessage"]) ∧
    exClosedA.close false =
      (exClosedA, [BroadcasterEffect.consoleError "close"]) ∧
    (exClosedA.updateMetadata 5 (Sum.inl 7)).1.metadata = 7 := by
  have h := c7_after_close_amended exClosedA 42 5 7 rfl
  exact ⟨rfl, h.1, h.2.1, h.2.2.1⟩

/-- C8 counterexample: on a freshly constructed (Open) single instance,
`close()` leaves the Peer Directory exactly as it was — it still holds the
instance's own descriptor — contradicting the claim that after `close()`
the directory holds no entries. -/
theorem c8_directory_not_cleared_counterexample :
    exInstanceA.closed = false ∧
    (exInstanceA.close false).1.broadcasters = [⟨0, "A", 0, none, 0⟩] ∧
    (exInstanceA.close false).1.broadcasters ≠ [] :=
  ⟨rfl, rfl, by decide⟩

/-- C8 (amended): `close()` does not clear the local Peer Directory: after
`close` returns (silent or not) the directory still holds exactly the
entries it held before, including the local instance's own descriptor;
entries disappear only from remote directories, via the DISCONNECTED
broadcast. -/
theorem c8_close_keeps_directory (b : Broadcaster Payload Metadata)
    (h : b.closed = false) :
    (b.close false).1.broadcasters = b.broadcasters ∧
    (b.close true).1.broadcasters = b.broadcasters := by
  constructor <;> simp [close, isBroadcasterActive, h]

/-- C8 witness: the amended statement applied to the concrete open
instance. -/
theorem c8_close_keeps_directory_witness :
    exInstanceA.closed = false ∧
    (exInstanceA.close false).1.broadcasters = exInstanceA.broadcasters := by
  have h := c8_close_keeps_directory exInstanceA rfl
  exact ⟨rfl, h.1⟩

/-- C10: `close(true)` always runs the full teardown, whatever the closed
flag: the `on.close` callback fires and a DISCONNECTED control message is
posted to the bridge on every such call, so a second silent close on the
already-closed instance fires the callback and sends DISCONNECTED a second
time. -/
theorem c10_silent_close_repeats (b : Broadcaster Payload Metadata)
    (h : b.settings.onClose = true) :
    onCloseCount (b.close true).2 = 1 ∧
    disconnectedSendCount (b.close true).2 = 1 ∧
    (b.close true).1.closed = true ∧
    onCloseCount ((b.close true).1.close true).2 = 1 ∧
    disconnectedSendCount ((b.close true).1.close true).2 = 1 := by
  refine ⟨?_, ?_, ?_, ?_, ?_⟩ <;>
    simp [close, isBroadcasterActive, onCloseCount, disconnectedSendCount,
      prepareStateMessage, h, List.countP_append, List.countP_map,
      Function.comp]

/-- C10 witness: silent close applied twice to a concrete instance whose
settings register an `on.close` callback: both calls fire the callback and
send DISCONNECTED. -/
theorem c10_silent_close_repeats_witness :
    exInstanceCb.settings.onClose = true ∧
    onCloseCount (exInstanceCb.close true).2 = 1 ∧
    (exInstanceCb.close true).1.closed = true ∧
    onCloseCount ((exInstanceCb.close true).1.close true).2 = 1 ∧
    disconnectedSendCount ((exInstanceCb.close true).1.close true).2 = 1 := by
  have h := c10_silent_close_repeats exInstanceCb rfl
  exact ⟨rfl, h.1, h.2.2.1, h.2.2.2.1, h.2.2.2.2⟩

/-- The reconciliation never changes the instance identity. -/
theorem updateBroadcasterDescriptor_fst_id (b : Broadcaster Payload Metadata)
    (now : Nat) (data : BroadcasterStateMessage Metadata) (lu : Bool) :
    (b.updateBroadcasterDescriptor now data lu).1.id = b.id := by
  unfold updateBroadcasterDescriptor
  split
  · rfl
  · cases data.type <;> cases data.state <;> simp [publishSnapshot]

/-- Characterization of the directory after the reconciliation runs (guard
not taken). -/
theorem updateBroadcasterDescriptor_fst_broadcasters
    (b : Broadcaster Payload Metadata) (now : Nat)
    (data : BroadcasterStateMessage Metadata) (lu : Bool)
    (hg : descriptorGuard b data lu = false) :
    (b.updateBroadcasterDescriptor now data lu).1.broadcasters =
      match data.type, data.state with
      | StateMessageType.CONNECTED, some s =>
          b.broadcasters ++ [stateToDescriptor s now]
      | StateMessageType.CONNECTED, none => b.broadcasters
      | StateMessageType.UPDATED, some s =>
          b.broadcasters.filter (fun br => br.id ≠ data.from') ++
            [stateToDescriptor s now]
      | StateMessageType.UPDATED, none => b.broadcasters
      | StateMessageType.DISCONNECTED, _ =>
          b.broadcasters.filter (fun br => br.id ≠ data.from')
      | StateMessageType.HEALTH_BEACON, _ =>
          b.broadcasters.map (fun br =>
            if br.id = data.from' then { br with lastUpdate := now } else br) := by
  unfold updateBroadcasterDescriptor
  rw [hg]
  cases data.type <;> cases data.state <;> simp [publishSnapshot]

/-- When the reconciliation guard is taken, nothing happens at all. -/
theorem updateBroadcasterDescriptor_guard_taken
    (b : Broadcaster Payload Metadata) (now : Nat)
    (data : BroadcasterStateMessage Metadata) (lu : Bool)
    (hg : descriptorGuard b data lu = true) :
    b.updateBroadcasterDescriptor now data lu = (b, []) := by
  unfold updateBroadcasterDescriptor
  simp [hg]

/-- When the reconciliation guard is not taken with `localUpdate = false`,
the message came from a genuinely remote peer. -/
theorem descriptorGuard_false_from (b : Broadcaster Payload Metadata)
    (data : BroadcasterStateMessage Metadata)
    (hg : descriptorGuard b data false = false) : data.from' ≠ b.id := by
  simp [descriptorGuard] at hg
  exact hg.2

/-- The reaper never changes the instance identity. -/
theorem collectGarbage_fst_id (b : Broadcaster Payload Metadata) (now : Nat) :
    (b.collectGarbage now).1.id = b.id := by
  by_cases hd : b.settings.disableGarbageCollector = true
  · simp [collectGarbage, hd]
  · by_cases hlen : (List.filter (keepAlive b now) b.broadcasters).length
        = b.broadcasters.length <;>
      simp [collectGarbage, hd, hlen, publishSnapshot]

/-- The directory after one reaper tick. -/
theorem collectGarbage_fst_broadcasters (b : Broadcaster Payload Metadata)
    (now : Nat) :
    (b.collectGarbage now).1.broadcasters =
      if b.settings.disableGarbageCollector then b.broadcasters
      else b.broadcasters.filter (keepAlive b now) := by
  by_cases hd : b.settings.disableGarbageCollector = true
  · simp [collectGarbage, hd]
  · by_cases hlen : (List.filter (keepAlive b now) b.broadcasters).length
        = b.broadcasters.length <;>
      simp [collectGarbage, hd, hlen, publishSnapshot]

/-- One operation on an open instance never changes the instance
identity. -/
theorem applyOp_id (b : Broadcaster Payload Metadata)
    (op : BroadcasterOp Payload Metadata) : (applyOp b op).id = b.id := by
  cases op with
  | recvState now m => exact updateBroadcasterDescriptor_fst_id b now m false
  | recvMessage m =>
    show (b.pushMessage m).1.id = b.id
    unfold pushMessage
    split <;> rfl
  | updateMeta now nm =>
    show (b.updateMetadata now nm).1.id = b.id
    exact updateBroadcasterDescriptor_fst_id _ now _ true
  | post p =>
    show (b.postMessage p).1.id = b.id
    by_cases h : b.closed = true <;>
      simp [postMessage, isBroadcasterActive, h]
  | gc now => exact collectGarbage_fst_id b now
  | beacon => rfl

/-- One operation on an open instance preserves the self-presence part of
the directory invariant. -/
theorem applyOp_selfRegistered (b : Broadcaster Payload Metadata)
    (op : BroadcasterOp Payload Metadata) (h : selfRegistered b) :
    selfRegistered (applyOp b op) := by
  obtain ⟨d, hd, hdid⟩ := h
  unfold selfRegistered
  rw [applyOp_id]
  cases op with
  | recvState now m =>
    show ∃ x ∈ (b.updateBroadcasterDescriptor now m false).1.broadcasters,
      x.id = b.id
    by_cases hg : descriptorGuard b m false = true
    · rw [updateBroadcasterDescriptor_guard_taken b now m false hg]
      exact ⟨d, hd, hdid⟩
    · rw [Bool.not_eq_true] at hg
      have hfrom := descriptorGuard_false_from b m hg
      rw [updateBroadcasterDescriptor_fst_broadcasters b now m false hg]
      obtain ⟨mf, mst, mto, mty⟩ := m
      simp only at hfrom
      have hne : d.id ≠ mf := by rw [hdid]; exact Ne.symm hfrom
      cases mty <;> cases mst
      · exact ⟨d, hd, hdid⟩
      · exact ⟨d, List.mem_append_left _ hd, hdid⟩
      · exact ⟨d, hd, hdid⟩
      · refine ⟨d, List.mem_append_left _ ?_, hdid⟩
        exact List.mem_filter.2 ⟨hd, by simpa using hne⟩
      · exact ⟨d, List.mem_filter.2 ⟨hd, by simpa using hne⟩, hdid⟩
      · exact ⟨d, List.mem_filter.2 ⟨hd, by simpa using hne⟩, hdid⟩
      · exact ⟨d, List.mem_map.2 ⟨d, hd, by simp [hne]⟩, hdid⟩
      · exact ⟨d, List.mem_map.2 ⟨d, hd, by simp [hne]⟩, hdid⟩
  | recvMessage m =>
    show ∃ x ∈ (b.pushMessage m).1.broadcasters, x.id = b.id
    unfold pushMessage
    split
    · exact ⟨d, hd, hdid⟩
    · exact ⟨d, hd, hdid⟩
  | updateMeta now nm =>
    show ∃ x ∈ (b.updateMetadata now nm).1.broadcasters, x.id = b.id
    unfold updateMetadata
    have hg : descriptorGuard
        { b with metadata := match nm with | Sum.inl m => m | Sum.inr f => f b.metadata }
        (prepareStateMessage
          { b with metadata := match nm with | Sum.inl m => m | Sum.inr f => f b.metadata }
          StateMessageType.UPDATED none false) true = false := by
      simp [descriptorGuard]
    rw [updateBroadcasterDescriptor_fst_broadcasters _ now _ true hg]
    exact ⟨_, List.mem_append_right _ (List.mem_singleton.2 rfl), rfl⟩
  | post p =>
    show ∃ x ∈ (b.postMessage p).1.broadcasters, x.id = b.id
    have hfst : (b.postMessage p).1 = b := by
      by_cases h : b.closed = true <;>
        simp [postMessage, isBroadcasterActive, h]
    rw [hfst]
    exact ⟨d, hd, hdid⟩
  | gc now =>
    show ∃ x ∈ (b.collectGarbage now).1.broadcasters, x.id = b.id
    rw [collectGarbage_fst_broadcasters]
    split
    · exact ⟨d, hd, hdid⟩
    · exact ⟨d, List.mem_filter.2 ⟨hd, by simp [keepAlive, hdid]⟩, hdid⟩
  | beacon => exact ⟨d, hd, hdid⟩

/-- Running any operation sequence preserves the instance identity. -/
theorem runOps_id (b : Broadcaster Payload Metadata)
    (ops : List (BroadcasterOp Payload Metadata)) : (runOps b ops).id = b.id := by
  induction ops generalizing b with
  | nil => rfl
  | cons op rest ih => exact (ih (applyOp b op)).trans (applyOp_id b op)

/-- Running any operation sequence preserves self-presence. -/
theorem runOps_selfRegistered (b : Broadcaster Payload Metadata)
    (ops : List (BroadcasterOp Payload Metadata)) (h : selfRegistered b) :
    selfRegistered (runOps b ops) := by
  induction ops generalizing b with
  | nil => exact h
  | cons op rest ih => exact ih (applyOp b op) (applyOp_selfRegistered b op h)

/-- Construction registers exactly the local descriptor. -/
theorem initBroadcaster_fst (settings : BroadcasterSettings Payload Metadata)
    (ident : String) (createdAt tInit : Nat) :
    (initBroadcaster settings ident createdAt tInit).1.broadcasters =
      [⟨createdAt, ident, settings.metadata, none, tInit⟩] ∧
    (initBroadcaster settings ident createdAt tInit).1.id = ident := by
  constructor <;>
    simp [initBroadcaster, updateBroadcasterDescriptor, descriptorGuard,
      prepareStateMessage, stateToDescriptor, publishSnapshot]

/-- C6 counterexample: the at-most-one-entry-per-id part of the directory
invariant fails on a reachable state: a fresh instance "A" that processes
peer "B"'s CONNECTED broadcast twice (CONNECTED appends unconditionally,
with no per-id deduplication) ends with directory ids ["A", "B", "B"] —
two entries for the same peer id "B". -/
theorem c6_duplicate_ids_counterexample :
    (runOps (initBroadcaster exSettings "A" 0 0).1
        [BroadcasterOp.recvState 1 exConnectedB,
         BroadcasterOp.recvState 2 exConnectedB]).broadcasters.map
      (fun d => d.id) = ["A", "B", "B"] ∧
    ¬ ((runOps (initBroadcaster exSettings "A" 0 0).1
        [BroadcasterOp.recvState 1 exConnectedB,
         BroadcasterOp.recvState 2 exConnectedB]).broadcasters.map
      (fun d => d.id)).Nodup :=
  ⟨rfl, by decide⟩

/-- C6 (amended): in every state reachable from construction by any
sequence of inbound control messages, inbound application messages and
local open-instance operations (metadata updates, posts, reaper and
heartbeat ticks), the Peer Directory always contains an entry whose id
equals the owning instance's own id; the at-most-one-entry-per-id half of
the original claim is dropped, since CONNECTED appends without
deduplication. -/
theorem c6_self_presence_invariant
    (settings : BroadcasterSettings Payload Metadata) (ident : String)
    (createdAt tInit : Nat) (ops : List (BroadcasterOp Payload Metadata)) :
    ∃ d ∈ (runOps (initBroadcaster settings ident createdAt tInit).1
        ops).broadcasters, d.id = ident := by
  have hinit := initBroadcaster_fst settings ident createdAt tInit
  have hself : selfRegistered (initBroadcaster settings ident createdAt tInit).1 := by
    rw [selfRegistered, hinit.1, hinit.2]
    exact ⟨_, List.mem_singleton.2 rfl, rfl⟩
  obtain ⟨d, hd, hdid⟩ :=
    runOps_selfRegistered (initBroadcaster settings ident createdAt tInit).1 ops hself
  refine ⟨d, hd, hdid.trans ?_⟩
  rw [runOps_id, hinit.2]

end Claims

end BroadcasterJS
